import Mathlib

/-!
Verification of the subtitle-generation core of dnzrx/video_sub_creator
(src/video_sub_creator/main.py) against its natural-language specification.

The Python code is shallowly embedded: seconds values (Python floats) are
modelled as exact rationals, the builtin round as round-half-to-even on the
exact value, integer floor division as division on ℤ (the Lean division on ℤ
is Euclidean division, which agrees with the Python floor division on the
non-negative values that occur here), f-string zero padding as zfill,
str.strip as dropping whitespace on both ends, str.replace as a left-to-right
non-overlapping scan, file writing as returning the written string, and the
assert statement as an Option guard.  At every concrete input used below the
exact-rational rounding was checked to agree with the IEEE-754 double
evaluation performed by CPython.  The batch coordinator is embedded by
passing the per-file outcomes of the external capabilities (audio decode,
transcription, file writing) explicitly; the thread pool is modelled by
processing every dispatched job and collecting one report per job, which is
what the claims about isolation and completion quantify over.
-/

/-- Python builtin round on the exact rational value of its argument:
round to the nearest integer, ties going to the even integer. -/
def pythonRound (q : ℚ) : ℤ :=
  if q - ⌊q⌋ < 1/2 then ⌊q⌋
  else if 1/2 < q - ⌊q⌋ then ⌊q⌋ + 1
  else if ⌊q⌋ % 2 = 0 then ⌊q⌋ else ⌊q⌋ + 1

/-- Python format spec 0Nd for a non-negative integer: decimal digits,
left-padded with the digit 0 to a minimal width. -/
def zfill (w : Nat) (n : ℤ) : String :=
  let s := toString n
  if s.length < w then String.mk (List.replicate (w - s.length) '0') ++ s else s

/-- The division cascade of SubtitleGenerator._format_timestamp, lines 18-23:
hours, minutes, seconds and milliseconds obtained by integer division and
remainder subtraction from a total number of milliseconds. -/
def msFields (ms0 : ℤ) : ℤ × ℤ × ℤ × ℤ :=
  let hours := ms0 / 3600000
  let ms1 := ms0 - hours * 3600000
  let minutes := ms1 / 60000
  let ms2 := ms1 - minutes * 60000
  let seconds := ms2 / 1000
  let ms3 := ms2 - seconds * 1000
  (hours, minutes, seconds, ms3)

/-- The f-string of SubtitleGenerator._format_timestamp, line 24, applied to
a total millisecond count. -/
def formatMilliseconds (ms0 : ℤ) (decimal_marker : String) : String :=
  zfill 2 (msFields ms0).1 ++ ":" ++ zfill 2 (msFields ms0).2.1 ++ ":" ++
    zfill 2 (msFields ms0).2.2.1 ++ decimal_marker ++ zfill 3 (msFields ms0).2.2.2

/-- Body of SubtitleGenerator._format_timestamp after the assert:
milliseconds = round(seconds * 1000.0) followed by the division cascade
and the f-string. -/
def formatTimestampPos (seconds : ℚ) (decimal_marker : String) : String :=
  formatMilliseconds (pythonRound (seconds * 1000)) decimal_marker

/-- SubtitleGenerator._format_timestamp, lines 15-24.  The assert on line 16
makes a negative argument a precondition failure (AssertionError), modelled
as none; otherwise the formatted string is returned. -/
def _format_timestamp (seconds : ℚ) (decimal_marker : String) : Option String :=
  if seconds < 0 then none else some (formatTimestampPos seconds decimal_marker)

/-- Python str.replace applied to the pattern consisting of dash, dash,
greater-than with replacement dash, greater-than: scan left to right,
replace each non-overlapping occurrence, resume after the replacement. -/
def replaceArrow : List Char → List Char
  | '-' :: '-' :: '>' :: rest => '-' :: '>' :: replaceArrow rest
  | c :: rest => c :: replaceArrow rest
  | [] => []

/-- The arrow replacement of main.py lines 32 and 40 lifted to strings. -/
def arrowReplace (t : String) : String := String.mk (replaceArrow t.data)

/-- Tests whether a character list begins with dash, dash, dash,
greater-than; used to state when the arrow replacement is idempotent. -/
def startsQuad : List Char → Bool
  | '-' :: '-' :: '-' :: '>' :: _ => true
  | _ => false

/-- Tests whether dash, dash, dash, greater-than occurs anywhere in a
character list. -/
def containsQuadArrow : List Char → Bool
  | [] => false
  | c :: rest => startsQuad (c :: rest) || containsQuadArrow rest

/-- Python str.strip: drop whitespace from both ends. -/
def pyStrip (l : List Char) : List Char :=
  ((l.dropWhile Char.isWhitespace).reverse.dropWhile Char.isWhitespace).reverse

/-- Text sanitization of main.py lines 32 and 40: strip then arrow
replacement. -/
def sanitizeText (t : String) : String := String.mk (replaceArrow (pyStrip t.data))

/-- One transcript segment as produced by the transcription capability:
a start time, an end time and a text. -/
structure Segment where
  start : ℚ
  «end» : ℚ
  text : String

/-- One VTT cue block (timing line, sanitized text, blank line) for a segment
whose timestamps satisfy the formatter precondition. -/
def vttBlockPos (seg : Segment) : String :=
  formatTimestampPos seg.start "." ++ " --> " ++ formatTimestampPos seg.«end» "." ++ "\n" ++
    sanitizeText seg.text ++ "\n\n"

/-- One VTT cue block as the code computes it, lines 29-32: the two
_format_timestamp calls may fail on negative inputs. -/
def vttBlock (seg : Segment) : Option String := do
  let s ← _format_timestamp seg.start "."
  let e ← _format_timestamp seg.«end» "."
  pure (s ++ " --> " ++ e ++ "\n" ++ sanitizeText seg.text ++ "\n\n")

/-- One SRT block (index line, timing line with comma separator, sanitized
text, blank line) for valid timestamps. -/
def srtBlockPos (i : Nat) (seg : Segment) : String :=
  toString i ++ "\n" ++ formatTimestampPos seg.start "," ++ " --> " ++
    formatTimestampPos seg.«end» "," ++ "\n" ++ sanitizeText seg.text ++ "\n\n"

/-- One SRT block as the code computes it, lines 37-41. -/
def srtBlock (i : Nat) (seg : Segment) : Option String := do
  let s ← _format_timestamp seg.start ","
  let e ← _format_timestamp seg.«end» ","
  pure (toString i ++ "\n" ++ s ++ " --> " ++ e ++ "\n" ++ sanitizeText seg.text ++ "\n\n")

/-- Effectful map over a list: each element is processed in order and the
first failure aborts, as the for loops of write_vtt and write_srt do when a
_format_timestamp call fails. -/
def mapMOption {α β : Type} (f : α → Option β) : List α → Option (List β)
  | [] => some []
  | a :: t => do
    let b ← f a
    let bs ← mapMOption f t
    pure (b :: bs)

/-- Full text written by SubtitleGenerator.write_vtt, lines 26-33, for a
given sequence of segments: the WEBVTT header, a blank line, then the cue
blocks in order. -/
def writeVttString (segs : List Segment) : Option String := do
  let blocks ← mapMOption vttBlock segs
  pure ("WEBVTT\n\n" ++ String.join blocks)

/-- Full text written by SubtitleGenerator.write_srt, lines 35-41:
enumerate(transcript, start=1) gives each block its 1-based index. -/
def writeSrtString (segs : List Segment) : Option String := do
  let blocks ← mapMOption (fun p => srtBlock p.1 p.2) (List.enumFrom 1 segs)
  pure (String.join blocks)

/-- The VTT output described block by block: header then, for each segment in
order, start arrow end, newline, text, blank line, with the dot separator and
no sequence numbers. -/
def vttContent (segs : List Segment) : String :=
  "WEBVTT\n\n" ++ String.join (segs.map vttBlockPos)

/-- The SRT output described block by block: for each segment in order, its
1-based index, the timing line with the comma separator, the text and a blank
line. -/
def srtContent (segs : List Segment) : String :=
  String.join ((List.enumFrom 1 segs).map (fun p => srtBlockPos p.1 p.2))

/-- A Python iterable as stored in SubtitleGenerator.transcript, line 13.
A list restarts from its first element at each for loop; a one-shot iterator
(generator) yields its remaining elements once and is then exhausted. -/
inductive PyIterable where
  | reusable (segs : List Segment)
  | oneShot (segs : List Segment)

/-- One full iteration over the stored iterable, returning the visited
segments and the state the iterable is left in. -/
def iterateAll : PyIterable → List Segment × PyIterable
  | .reusable segs => (segs, .reusable segs)
  | .oneShot segs => (segs, .oneShot [])

/-- SubtitleGenerator, lines 11-13: the constructor stores the transcript
object itself. -/
structure SubtitleGenerator where
  transcript : PyIterable

/-- SubtitleGenerator.write_vtt, lines 26-33: iterates the stored transcript
once and renders the VTT text, leaving the transcript in its post-iteration
state. -/
def SubtitleGenerator.write_vtt (g : SubtitleGenerator) : Option String × SubtitleGenerator :=
  (writeVttString (iterateAll g.transcript).1, ⟨(iterateAll g.transcript).2⟩)

/-- SubtitleGenerator.write_srt, lines 35-41: iterates the stored transcript
once with enumerate(start=1) and renders the SRT text. -/
def SubtitleGenerator.write_srt (g : SubtitleGenerator) : Option String × SubtitleGenerator :=
  (writeSrtString (iterateAll g.transcript).1, ⟨(iterateAll g.transcript).2⟩)

/-- The two-segment transcript of the end-to-end scenario in the spec. -/
def exampleTranscript : List Segment :=
  [⟨0, 1.2, "Hello"⟩, ⟨1.2, 2.5, "World"⟩]

/-- Per-file outcomes of the external capabilities one job interacts with:
the audio decode result of _extract_audio (none models a CalledProcessError
path, which returns None), the transcription call (which may raise), and the
two subtitle file writes (which may raise IOError). -/
structure JobEnv where
  extract : Option (List ℚ)
  transcribe : Except String (List Segment)
  write : Except String Unit

/-- VideoProcessor._process_single_video, lines 97-117: extraction failure
returns before transcription; otherwise transcription runs and may raise;
then the writes run and may raise.  The Bool records whether the
transcription capability was invoked. -/
def _process_single_video (env : JobEnv) : Bool × Except String Unit :=
  match env.extract with
  | none => (false, Except.ok ())
  | some _ =>
    match env.transcribe with
    | Except.error e => (true, Except.error e)
    | Except.ok _ => (true, env.write)

/-- The per-future boundary in VideoProcessor.run, lines 135-141: the result
of a job is awaited, an exception is caught and turned into a diagnostic line
naming the file, and a successful job produces no diagnostic. -/
def jobReport (name : String) (env : JobEnv) : String :=
  match (_process_single_video env).2 with
  | Except.ok _ => "ok"
  | Except.error e => "An unexpected error occurred while processing " ++ name ++ ": " ++ e

/-- VideoProcessor.run, lines 133-142: every discovered file is dispatched,
every future is awaited regardless of outcome, and the final completion line
is printed afterwards. -/
def runBatch (jobs : List (String × JobEnv)) : List (String × String) × String :=
  (jobs.map (fun j => (j.1, jobReport j.1 j.2)),
    "Job finished. All videos processed successfully.")

/-- warnings.filterwarnings(action): the CPython _add_filter helper first
removes an identical existing filter entry, if present, and then inserts the
entry at the front of the ambient filter list.  Entries are modelled by
strings; the entry created by a call with a given action and default
arguments is modelled by the action itself, and ambient entries that differ
from it are modelled by other strings. -/
def filterwarnings (action : String) (filters : List String) : List String :=
  action :: filters.erase action

/-- The transcription step of _process_single_video, lines 105-107:
filterwarnings("ignore"), the transcription call, then, only when the call
returns normally, filterwarnings("default").  The ambient filter list is
threaded through explicitly. -/
def transcribeWithWarnings (prior : List String) (outcome : Except String (List Segment)) :
    List String × Except String (List Segment) :=
  let during := filterwarnings "ignore" prior
  match outcome with
  | Except.error e => (during, Except.error e)
  | Except.ok t => (filterwarnings "default" during, Except.ok t)

/-- Interpretation of two consecutive bytes as one signed 16-bit
little-endian sample, as numpy frombuffer with dtype int16 does. -/
def int16OfLE (b0 b1 : Nat) : ℤ :=
  if 32768 ≤ (b0 + 256 * b1 : ℤ) then (b0 + 256 * b1 : ℤ) - 65536 else (b0 + 256 * b1 : ℤ)

/-- numpy frombuffer with dtype int16 on a byte string: pairs of bytes become
signed 16-bit samples; an odd-length buffer raises, modelled as none. -/
def frombufferInt16 : List Nat → Option (List ℤ)
  | [] => some []
  | b0 :: b1 :: rest => Option.map (fun zs => int16OfLE b0 b1 :: zs) (frombufferInt16 rest)
  | _ => none

/-- The success path of _extract_audio, line 85: decode the byte stream as
int16 samples and divide by 32768.0 to normalize. -/
def extractSamples (bytes : List Nat) : Option (List ℚ) :=
  Option.map (List.map (fun z : ℤ => (z : ℚ) / 32768)) (frombufferInt16 bytes)

/-- Job outcomes used as concrete witnesses: an extraction failure. -/
def envExtractFail : JobEnv := ⟨none, Except.ok [], Except.ok ()⟩

/-- Job outcomes used as concrete witnesses: a transcription call that
raises. -/
def envRaise : JobEnv := ⟨some [], Except.error "boom", Except.ok ()⟩

/-- Job outcomes used as concrete witnesses: a fully successful job. -/
def envOk : JobEnv := ⟨some [], Except.ok [], Except.ok ()⟩

lemma ft_pos (s : ℚ) (m : String) (h : 0 ≤ s) :
    _format_timestamp s m = some (formatTimestampPos s m) := by
  rw [_format_timestamp, if_neg (not_lt.2 h)]

lemma pythonRound_intCast (n : ℤ) : pythonRound (n : ℚ) = n := by
  unfold pythonRound
  rw [Int.floor_intCast]
  simp

lemma pythonRound_half (n : ℤ) :
    pythonRound ((n : ℚ) + 1/2) = if n % 2 = 0 then n else n + 1 := by
  have hf : ⌊(n : ℚ) + 1/2⌋ = n := by
    rw [Int.floor_eq_iff]
    constructor
    · linarith [show (0:ℚ) < 1/2 by norm_num]
    · linarith [show (1:ℚ)/2 < 1 by norm_num]
  have hsub : ((n : ℚ) + 1/2) - n = 1/2 := by ring
  unfold pythonRound
  rw [hf, hsub]
  simp

lemma pythonRound_of_gt (q : ℚ) (n : ℤ) (hf : ⌊q⌋ = n) (h : 1/2 < q - n) :
    pythonRound q = n + 1 := by
  have h2 : ¬ (q - n < 1/2) := by linarith
  unfold pythonRound
  rw [hf, if_neg h2, if_pos h]

lemma formatTimestampPos_zero : formatTimestampPos 0 "." = "00:00:00.000" := by
  unfold formatTimestampPos
  rw [show ((0:ℚ) * 1000) = ((0:ℤ) : ℚ) by norm_num, pythonRound_intCast]
  decide

lemma formatTimestampPos_3661 : formatTimestampPos 3661.4995 "." = "01:01:01.500" := by
  unfold formatTimestampPos
  rw [show ((3661.4995:ℚ) * 1000) = ((3661499:ℤ) : ℚ) + 1/2 by norm_num, pythonRound_half]
  decide

lemma formatTimestampPos_0996 : formatTimestampPos 0.9996 "." = "00:00:01.000" := by
  unfold formatTimestampPos
  have hgt : pythonRound ((0.9996:ℚ) * 1000) = 999 + 1 := by
    apply pythonRound_of_gt _ 999
    · rw [show ((0.9996:ℚ) * 1000) = 999.6 by norm_num]
      norm_num
    · rw [show ((0.9996:ℚ) * 1000) = 999.6 by norm_num]
      push_cast
      norm_num
  rw [hgt]
  decide

lemma formatTimestampPos_599995 : formatTimestampPos 59.9995 "." = "00:01:00.000" := by
  unfold formatTimestampPos
  rw [show ((59.9995:ℚ) * 1000) = ((59999:ℤ) : ℚ) + 1/2 by norm_num, pythonRound_half]
  decide

/-- Claim C2: the timestamp formatter meets the concrete value examples of the
specification: format(0) is 00:00:00.000, format(3661.4995) rounds to
01:01:01.500, and format(0.9996) rounds to 00:00:01.000 with the carry
propagating into the seconds field. -/
theorem claim_C2_timestamp_examples :
    _format_timestamp 0 "." = some "00:00:00.000" ∧
    _format_timestamp 3661.4995 "." = some "01:01:01.500" ∧
    _format_timestamp 0.9996 "." = some "00:00:01.000" := by
  refine ⟨?_, ?_, ?_⟩
  · rw [ft_pos 0 "." (by norm_num), formatTimestampPos_zero]
  · rw [ft_pos 3661.4995 "." (by norm_num), formatTimestampPos_3661]
  · rw [ft_pos 0.9996 "." (by norm_num), formatTimestampPos_0996]

/-- Claim C3, counterexample: on input 59.9995 the formatter does NOT produce
the string 01:00:00.000 stated by the specification (the rounded 60000
milliseconds carry into the minutes field, not the hours field). -/
theorem claim_C3_counterexample :
    _format_timestamp 59.9995 "." ≠ some "01:00:00.000" := by
  rw [ft_pos 59.9995 "." (by norm_num), formatTimestampPos_599995]
  decide

/-- Claim C3, amended: for input 59.9995 seconds the formatter rounds to the
nearest integer millisecond (60000, ties to even) and decomposes by integer
division with remainder propagation, so the carry reaches the minutes unit
and the produced string is 00:01:00.000. -/
theorem claim_C3_carry_into_minutes :
    pythonRound ((59.9995 : ℚ) * 1000) = 60000 ∧
    _format_timestamp 59.9995 "." = some "00:01:00.000" := by
  constructor
  · rw [show ((59.9995:ℚ) * 1000) = ((59999:ℤ) : ℚ) + 1/2 by norm_num, pythonRound_half]
    decide
  · rw [ft_pos 59.9995 "." (by norm_num), formatTimestampPos_599995]

/-- Claim C5: every negative seconds value is a precondition violation: the
formatter fails (assert on line 16) instead of returning a string. -/
theorem claim_C5_negative_precondition (s : ℚ) (m : String) (h : s < 0) :
    _format_timestamp s m = none := by
  rw [_format_timestamp, if_pos h]

/-- Witness for claim C5 at the concrete input -1. -/
theorem claim_C5_witness :
    (-1 : ℚ) < 0 ∧ _format_timestamp (-1) "." = none :=
  ⟨by norm_num, claim_C5_negative_precondition (-1) "." (by norm_num)⟩

/-- Claim C6: for every non-negative seconds value the two timestamp styles
agree except for the single separator slot: there are common strings a and b
with format(s, dot) = a ++ dot ++ b and format(s, comma) = a ++ comma ++ b. -/
theorem claim_C6_separator_only_difference (s : ℚ) (h : 0 ≤ s) :
    ∃ a b, _format_timestamp s "." = some (a ++ "." ++ b) ∧
      _format_timestamp s "," = some (a ++ "," ++ b) := by
  refine ⟨zfill 2 (msFields (pythonRound (s * 1000))).1 ++ ":" ++
      zfill 2 (msFields (pythonRound (s * 1000))).2.1 ++ ":" ++
      zfill 2 (msFields (pythonRound (s * 1000))).2.2.1,
    zfill 3 (msFields (pythonRound (s * 1000))).2.2.2, ?_, ?_⟩
  · rw [ft_pos _ _ h]
    rfl
  · rw [ft_pos _ _ h]
    rfl

/-- Witness for claim C6 at the concrete input 0. -/
theorem claim_C6_witness :
    (0 : ℚ) ≤ 0 ∧ ∃ a b, _format_timestamp 0 "." = some (a ++ "." ++ b) ∧
      _format_timestamp 0 "," = some (a ++ "," ++ b) :=
  ⟨le_refl 0, claim_C6_separator_only_difference 0 (le_refl 0)⟩

lemma ra_gt (l : List Char) : replaceArrow ('>' :: l) = '>' :: replaceArrow l := rfl

lemma ra_dg (l : List Char) : replaceArrow ('-' :: '>' :: l) = '-' :: '>' :: replaceArrow l := rfl

lemma ra_triple (l : List Char) :
    replaceArrow ('-' :: '-' :: '>' :: l) = '-' :: '>' :: replaceArrow l := rfl

lemma cqa_cons (c : Char) (l : List Char) :
    containsQuadArrow (c :: l) = (startsQuad (c :: l) || containsQuadArrow l) := rfl

lemma sq_ddg (l : List Char) : startsQuad ('-' :: '-' :: '>' :: l) = false := rfl

lemma sq_dg (l : List Char) : startsQuad ('-' :: '>' :: l) = false := rfl

lemma sq_g (l : List Char) : startsQuad ('>' :: l) = false := rfl

lemma sq_quad (l : List Char) : startsQuad ('-' :: '-' :: '-' :: '>' :: l) = true := rfl

lemma ra_copy (c : Char) (l : List Char)
    (h : ∀ u, c = '-' → l = '-' :: '>' :: u → False) :
    replaceArrow (c :: l) = c :: replaceArrow l := by
  rw [replaceArrow.eq_def]
  split
  · next u heq =>
    injection heq with h1 h2
    exact (h u h1 h2).elim
  · rename_i c2 rest2 hns heq
    injection heq with h1 h2
    rw [h1, h2]
  · rename_i heq
    simp at heq

lemma replaceArrow_head (l : List Char) (x : Char) (t : List Char)
    (h : replaceArrow l = x :: t) : ∃ u, l = x :: u := by
  rw [replaceArrow.eq_def] at h
  split at h
  · rename_i rest
    injection h with h1 h2
    exact ⟨'-' :: '>' :: rest, by rw [← h1]⟩
  · rename_i c2 rest2 hns
    injection h with h1 h2
    exact ⟨rest2, by rw [← h1]⟩
  · exact absurd h (by simp)

lemma replaceArrow_eq_gt_cons (l t : List Char) (h : replaceArrow l = '>' :: t) :
    ∃ u, l = '>' :: u ∧ replaceArrow u = t := by
  obtain ⟨u, rfl⟩ := replaceArrow_head l '>' t h
  rw [ra_gt] at h
  injection h with h1 h2
  exact ⟨u, rfl, h2⟩

lemma replaceArrow_eq_dg_cons (l t : List Char) (h : replaceArrow l = '-' :: '>' :: t) :
    (∃ u, l = '-' :: '-' :: '>' :: u ∧ replaceArrow u = t) ∨
    (∃ u, l = '-' :: '>' :: u ∧ replaceArrow u = t) := by
  rw [replaceArrow.eq_def] at h
  split at h
  · rename_i rest
    injection h with h1 h2
    injection h2 with h3 h4
    exact Or.inl ⟨rest, rfl, h4⟩
  · rename_i c2 rest2 hns
    injection h with h1 h2
    obtain ⟨u, rfl, hu⟩ := replaceArrow_eq_gt_cons rest2 t h2
    subst h1
    exact Or.inr ⟨u, rfl, hu⟩
  · exact absurd h (by simp)

lemma replaceArrow_idem (l : List Char) (h : containsQuadArrow l = false) :
    replaceArrow (replaceArrow l) = replaceArrow l := by
  induction l using replaceArrow.induct with
  | case1 rest ih =>
    have hrest : containsQuadArrow rest = false := by
      simpa [cqa_cons, sq_ddg, sq_dg, sq_g] using h
    rw [ra_triple, ra_dg, ih hrest]
  | case2 c rest hside ih =>
    rw [cqa_cons] at h
    simp only [Bool.or_eq_false_iff] at h
    rw [ra_copy c rest hside]
    have hnd : ∀ u, c = '-' → replaceArrow rest = '-' :: '>' :: u → False := by
      intro u hc hru
      rcases replaceArrow_eq_dg_cons rest u hru with ⟨v, hv, _⟩ | ⟨v, hv, _⟩
      · subst hc
        subst hv
        rw [sq_quad] at h
        simp at h
      · exact hside v hc hv
    rw [ra_copy c (replaceArrow rest) hnd, ih h.2]
  | case3 => rfl

/-- Claim C7, counterexample: the arrow replacement is not idempotent: on the
four-character text dash dash dash greater-than, one application yields dash
dash greater-than and a second application collapses it further. -/
theorem claim_C7_counterexample :
    arrowReplace (arrowReplace "--->") ≠ arrowReplace "--->" := by decide

/-- Claim C7, amended: the arrow replacement is idempotent on every text that
contains no occurrence of dash dash dash greater-than; on such texts applying
the replacement twice equals applying it once. -/
theorem claim_C7_idempotent_without_quad (t : String)
    (h : containsQuadArrow t.data = false) :
    arrowReplace (arrowReplace t) = arrowReplace t :=
  congrArg String.mk (replaceArrow_idem t.data h)

/-- Witness for the amended claim C7 on a concrete subtitle text. -/
theorem claim_C7_witness :
    containsQuadArrow "a --> b".data = false ∧
      arrowReplace (arrowReplace "a --> b") = arrowReplace "a --> b" :=
  ⟨by decide, claim_C7_idempotent_without_quad "a --> b" (by decide)⟩

lemma mapM_eq_map {α β : Type} (f : α → Option β) (g : α → β) (l : List α)
    (h : ∀ x ∈ l, f x = some (g x)) : mapMOption f l = some (l.map g) := by
  induction l with
  | nil => rfl
  | cons a t ih =>
    simp [mapMOption, h a (List.mem_cons_self a t),
      ih (fun x hx => h x (List.mem_cons_of_mem a hx))]

lemma vttBlock_eq (seg : Segment) (h1 : 0 ≤ seg.start) (h2 : 0 ≤ seg.«end») :
    vttBlock seg = some (vttBlockPos seg) := by
  simp [vttBlock, ft_pos _ _ h1, ft_pos _ _ h2, vttBlockPos]

lemma srtBlock_eq (i : Nat) (seg : Segment) (h1 : 0 ≤ seg.start) (h2 : 0 ≤ seg.«end») :
    srtBlock i seg = some (srtBlockPos i seg) := by
  simp [srtBlock, ft_pos _ _ h1, ft_pos _ _ h2, srtBlockPos]

lemma writeVtt_eq (segs : List Segment)
    (h : ∀ seg ∈ segs, 0 ≤ seg.start ∧ 0 ≤ seg.«end») :
    writeVttString segs = some (vttContent segs) := by
  have hm : mapMOption vttBlock segs = some (segs.map vttBlockPos) :=
    mapM_eq_map _ _ _ (fun seg hs => vttBlock_eq seg (h seg hs).1 (h seg hs).2)
  simp [writeVttString, hm, vttContent]

lemma writeSrt_eq (segs : List Segment)
    (h : ∀ seg ∈ segs, 0 ≤ seg.start ∧ 0 ≤ seg.«end») :
    writeSrtString segs = some (srtContent segs) := by
  have hm : mapMOption (fun p => srtBlock p.1 p.2) (List.enumFrom 1 segs) =
      some ((List.enumFrom 1 segs).map (fun p => srtBlockPos p.1 p.2)) := by
    apply mapM_eq_map
    intro p hp
    have hmem : p.2 ∈ segs := by
      have h2 := List.mem_map_of_mem Prod.snd hp
      rwa [List.enumFrom_map_snd] at h2
    exact srtBlock_eq p.1 p.2 (h _ hmem).1 (h _ hmem).2
  simp [writeSrtString, hm, srtContent]

lemma formatTimestampPos_eval (s : ℚ) (n : ℤ) (m : String) (h : s * 1000 = (n : ℚ)) :
    formatTimestampPos s m = formatMilliseconds n m := by
  unfold formatTimestampPos
  rw [h, pythonRound_intCast]

lemma ftp_12_dot : formatTimestampPos 1.2 "." = "00:00:01.200" := by
  rw [formatTimestampPos_eval 1.2 1200 "." (by norm_num)]
  decide

lemma ftp_25_dot : formatTimestampPos 2.5 "." = "00:00:02.500" := by
  rw [formatTimestampPos_eval 2.5 2500 "." (by norm_num)]
  decide

lemma ftp_0_comma : formatTimestampPos 0 "," = "00:00:00,000" := by
  rw [formatTimestampPos_eval 0 0 "," (by norm_num)]
  decide

lemma ftp_12_comma : formatTimestampPos 1.2 "," = "00:00:01,200" := by
  rw [formatTimestampPos_eval 1.2 1200 "," (by norm_num)]
  decide

lemma ftp_25_comma : formatTimestampPos 2.5 "," = "00:00:02,500" := by
  rw [formatTimestampPos_eval 2.5 2500 "," (by norm_num)]
  decide

lemma vttContent_example :
    vttContent exampleTranscript =
      "WEBVTT\n\n00:00:00.000 --> 00:00:01.200\nHello\n\n00:00:01.200 --> 00:00:02.500\nWorld\n\n" := by
  have h1 : vttContent exampleTranscript =
      "WEBVTT\n\n" ++ String.join
        [formatTimestampPos 0 "." ++ " --> " ++ formatTimestampPos 1.2 "." ++ "\n" ++
          sanitizeText "Hello" ++ "\n\n",
         formatTimestampPos 1.2 "." ++ " --> " ++ formatTimestampPos 2.5 "." ++ "\n" ++
          sanitizeText "World" ++ "\n\n"] := rfl
  rw [h1, formatTimestampPos_zero, ftp_12_dot, ftp_25_dot]
  decide

lemma srtContent_example :
    srtContent exampleTranscript =
      "1\n00:00:00,000 --> 00:00:01,200\nHello\n\n2\n00:00:01,200 --> 00:00:02,500\nWorld\n\n" := by
  have h1 : srtContent exampleTranscript =
      String.join
        [toString (1 : Nat) ++ "\n" ++ formatTimestampPos 0 "," ++ " --> " ++
          formatTimestampPos 1.2 "," ++ "\n" ++ sanitizeText "Hello" ++ "\n\n",
         toString (2 : Nat) ++ "\n" ++ formatTimestampPos 1.2 "," ++ " --> " ++
          formatTimestampPos 2.5 "," ++ "\n" ++ sanitizeText "World" ++ "\n\n"] := rfl
  rw [h1, ftp_0_comma, ftp_12_comma, ftp_25_comma]
  decide

lemma example_nonneg : ∀ seg ∈ exampleTranscript, 0 ≤ seg.start ∧ 0 ≤ seg.«end» := by
  intro seg hs
  simp [exampleTranscript] at hs
  rcases hs with h | h <;> subst h <;> constructor <;> norm_num

/-- Claim C1: for every transcript (given as a reusable ordered sequence of
segments with valid timestamps) the VTT output is exactly the WEBVTT header
plus one dot-separated block per segment with no sequence numbers, and the
SRT output is exactly one comma-separated block per segment with 1-based
increasing indices; in particular on the two-segment example transcript the
outputs equal the scenario strings of the spec byte for byte. -/
theorem claim_C1_serialization :
    (∀ segs : List Segment, (∀ seg ∈ segs, 0 ≤ seg.start ∧ 0 ≤ seg.«end») →
      (SubtitleGenerator.mk (.reusable segs)).write_vtt.1 = some (vttContent segs) ∧
      (SubtitleGenerator.mk (.reusable segs)).write_srt.1 = some (srtContent segs)) ∧
    (SubtitleGenerator.mk (.reusable exampleTranscript)).write_vtt.1 =
      some "WEBVTT\n\n00:00:00.000 --> 00:00:01.200\nHello\n\n00:00:01.200 --> 00:00:02.500\nWorld\n\n" ∧
    (SubtitleGenerator.mk (.reusable exampleTranscript)).write_srt.1 =
      some "1\n00:00:00,000 --> 00:00:01,200\nHello\n\n2\n00:00:01,200 --> 00:00:02,500\nWorld\n\n" := by
  refine ⟨fun segs h => ⟨writeVtt_eq segs h, writeSrt_eq segs h⟩, ?_, ?_⟩
  · show writeVttString exampleTranscript = _
    rw [writeVtt_eq _ example_nonneg, vttContent_example]
  · show writeSrtString exampleTranscript = _
    rw [writeSrt_eq _ example_nonneg, srtContent_example]

/-- Witness for claim C1 at the example transcript. -/
theorem claim_C1_witness :
    (SubtitleGenerator.mk (.reusable exampleTranscript)).write_vtt.1 =
      some (vttContent exampleTranscript) ∧
    (SubtitleGenerator.mk (.reusable exampleTranscript)).write_srt.1 =
      some (srtContent exampleTranscript) :=
  claim_C1_serialization.1 exampleTranscript example_nonneg

/-- Claim C10: the generator stores the transcript object and iterates that
same object once per output format; with a one-shot iterator the first (VTT)
write consumes all segments and the subsequent SRT write sees zero segments
and produces the empty file, while with a reusable sequence both outputs
contain every segment. -/
theorem claim_C10_iterator_consumption (segs : List Segment)
    (h : ∀ seg ∈ segs, 0 ≤ seg.start ∧ 0 ≤ seg.«end») :
    (SubtitleGenerator.mk (.oneShot segs)).write_vtt.1 = some (vttContent segs) ∧
    (SubtitleGenerator.mk (.oneShot segs)).write_vtt.2.write_srt.1 = some "" ∧
    (SubtitleGenerator.mk (.reusable segs)).write_vtt.1 = some (vttContent segs) ∧
    (SubtitleGenerator.mk (.reusable segs)).write_vtt.2.write_srt.1 = some (srtContent segs) := by
  refine ⟨writeVtt_eq segs h, rfl, writeVtt_eq segs h, writeSrt_eq segs h⟩

/-- Witness for claim C10 at the example transcript. -/
theorem claim_C10_witness :
    (SubtitleGenerator.mk (.oneShot exampleTranscript)).write_vtt.1 =
      some (vttContent exampleTranscript) ∧
    (SubtitleGenerator.mk (.oneShot exampleTranscript)).write_vtt.2.write_srt.1 = some "" :=
  ⟨(claim_C10_iterator_consumption exampleTranscript example_nonneg).1,
    (claim_C10_iterator_consumption exampleTranscript example_nonneg).2.1⟩

/-- Claim C4: a failure in one job does not abort the others: an extraction
failure ends that job before transcription is invoked and yields no error
report, an exception raised inside a job is caught at the per-job boundary
and reported with that file as identity, every dispatched job yields exactly
one report whatever the outcome of its siblings, and the completion line is
reported after all jobs. -/
theorem claim_C4_failure_isolation (jobs : List (String × JobEnv)) :
    (runBatch jobs).1.length = jobs.length ∧
    (runBatch jobs).2 = "Job finished. All videos processed successfully." ∧
    (∀ name env, (name, env) ∈ jobs → env.extract = none →
      (_process_single_video env).1 = false ∧ jobReport name env = "ok") ∧
    (∀ name env e, (name, env) ∈ jobs →
      (_process_single_video env).2 = Except.error e →
      jobReport name env =
        "An unexpected error occurred while processing " ++ name ++ ": " ++ e) ∧
    (runBatch jobs).1 = jobs.map (fun j => (j.1, jobReport j.1 j.2)) := by
  refine ⟨by simp [runBatch], rfl, ?_, ?_, rfl⟩
  · intro name env _ hex
    constructor
    · simp [_process_single_video, hex]
    · simp [jobReport, _process_single_video, hex]
  · intro name env e _ herr
    simp [jobReport, herr]

/-- Witness for claim C4 on a three-job batch with one extraction failure and
one raising transcription. -/
theorem claim_C4_witness :
    (runBatch [("a", envExtractFail), ("b", envRaise), ("c", envOk)]).1.length = 3 ∧
    (_process_single_video envExtractFail).1 = false ∧
    jobReport "b" envRaise = "An unexpected error occurred while processing b: boom" := by
  refine ⟨(claim_C4_failure_isolation [("a", envExtractFail), ("b", envRaise), ("c", envOk)]).1,
    ((claim_C4_failure_isolation [("a", envExtractFail), ("b", envRaise), ("c", envOk)]).2.2.1
      "a" envExtractFail (by simp) rfl).1,
    (claim_C4_failure_isolation [("a", envExtractFail), ("b", envRaise), ("c", envOk)]).2.2.2.1
      "b" envRaise "boom" (by simp) rfl⟩

/-- Claim C8, counterexample: after a transcription call that returns
normally the ambient warnings-filter state is not the prior state: starting
from the empty filter list, the step leaves two prepended filter entries. -/
theorem claim_C8_counterexample :
    (transcribeWithWarnings [] (Except.ok [])).1 ≠ [] := by decide

/-- Claim C8, amended: the transcription step inserts an ignore-all filter
entry at the front (removing an identical existing entry first) and, only on
a normal return, then inserts a default-all entry the same way; on an
exception the reset line never runs and the suppression stays in effect.
The prior ambient state is therefore restored only when it already carries
these entries at the front; whenever the prior state contains no ignore-all
entry (for example the empty ambient state) the state after the step differs
from the prior state. -/
theorem claim_C8_filter_state_after_call (prior : List String)
    (outcome : Except String (List Segment)) :
    (transcribeWithWarnings prior outcome).1 =
      (match outcome with
        | Except.ok _ => "default" :: ("ignore" :: prior.erase "ignore").erase "default"
        | Except.error _ => "ignore" :: prior.erase "ignore") ∧
    ("ignore" ∉ prior → (transcribeWithWarnings prior outcome).1 ≠ prior) := by
  cases outcome with
  | error e =>
    refine ⟨rfl, ?_⟩
    intro hnm hEq
    apply hnm
    rw [← hEq]
    exact List.mem_cons_self _ _
  | ok t =>
    refine ⟨rfl, ?_⟩
    intro hnm hEq
    apply hnm
    rw [← hEq]
    show "ignore" ∈ (transcribeWithWarnings prior (Except.ok t)).1
    have hr : (("ignore" :: prior.erase "ignore").erase "default") =
        "ignore" :: ((prior.erase "ignore").erase "default") :=
      List.erase_cons_tail (by decide)
    show "ignore" ∈ "default" :: ("ignore" :: prior.erase "ignore").erase "default"
    rw [hr]
    exact List.mem_cons_of_mem _ (List.mem_cons_self _ _)

/-- Witness for the amended claim C8: a raising transcription call on the
empty prior ambient state leaves the suppression active, so the prior state
is not restored. -/
theorem claim_C8_witness :
    (transcribeWithWarnings [] (Except.error "boom")).1 ≠ [] :=
  (claim_C8_filter_state_after_call [] (Except.error "boom")).2 (by simp)

lemma frombuffer_bounds (bytes : List Nat) :
    ∀ zs, (∀ b ∈ bytes, b < 256) → frombufferInt16 bytes = some zs →
      ∀ z ∈ zs, -32768 ≤ z ∧ z ≤ 32767 := by
  induction bytes using frombufferInt16.induct with
  | case1 =>
    intro zs _ hz z hzz
    simp [frombufferInt16] at hz
    subst hz
    simp at hzz
  | case2 b0 b1 rest ih =>
    intro zs hb hz z hzz
    simp [frombufferInt16] at hz
    obtain ⟨zs0, hz0, rfl⟩ := hz
    rcases List.mem_cons.mp hzz with rfl | hmem
    · have hb0 : b0 < 256 := hb b0 (by simp)
      have hb1 : b1 < 256 := hb b1 (by simp)
      unfold int16OfLE
      split <;> omega
    · exact ih zs0 (fun b hb2 => hb b (by simp [hb2])) hz0 z hmem
  | case3 x =>
    intro zs hb hz
    simp [frombufferInt16] at hz

/-- Claim C9: every sample produced by the success path of audio extraction
(signed 16-bit little-endian decode followed by division by 32768) lies in
the closed interval from -1 to 1. -/
theorem claim_C9_sample_bounds (bytes : List Nat) (samples : List ℚ)
    (hb : ∀ b ∈ bytes, b < 256) (hs : extractSamples bytes = some samples) :
    ∀ x ∈ samples, -1 ≤ x ∧ x ≤ 1 := by
  simp [extractSamples] at hs
  obtain ⟨zs, hz, rfl⟩ := hs
  intro x hx
  simp at hx
  obtain ⟨z, hzz, rfl⟩ := hx
  have hbd := frombuffer_bounds bytes zs hb hz z hzz
  constructor
  · rw [le_div_iff₀ (by norm_num : (0:ℚ) < 32768)]
    have hc : (-32768 : ℚ) ≤ (z : ℚ) := by exact_mod_cast hbd.1
    linarith
  · rw [div_le_one (by norm_num : (0:ℚ) < 32768)]
    have hc : (z : ℚ) ≤ 32767 := by exact_mod_cast hbd.2
    linarith

/-- Witness for claim C9 on the two-byte buffer holding the most negative
16-bit sample. -/
theorem claim_C9_witness : -1 ≤ (-1 : ℚ) ∧ (-1 : ℚ) ≤ 1 :=
  claim_C9_sample_bounds [0, 128] [-1] (by decide)
    (by norm_num [extractSamples, frombufferInt16, int16OfLE]) (-1) (by simp)
